import Mathlib

/-!
Shallow embedding of the forecasting core of the Air-Quality_Monitoring
repository (`src/lib/ml/air-quality-predictor.ts`, class `AirQualityPredictor`),
together with theorems settling the frozen claims about it.

Conventions of the embedding:
* JavaScript numbers are modelled as exact rationals (`ℚ`); decimal literals
  in the source become the corresponding exact rationals.
* A possibly-missing (`undefined`/`null`) numeric field is `Option ℚ`.
* `Math.round x` is `⌊x + 1/2⌋` (JS rounds half toward +∞).
* `Date.now()` is an explicit parameter `nowMs : ℕ` (milliseconds since the
  Unix epoch); `getHours`/`getDay`/`getMonth` are computed from it with the
  standard civil (proleptic-Gregorian, UTC) calendar.
* The single `throw` in the source becomes `Except.error`.
-/

namespace AirQuality

/-- A historical reading, restricted to the fields the predictor actually
reads (`d["aqi"]`, `d["pm25"]`, `d["pm10"]`, `d["no2"]`); each may be
absent/null. -/
structure Reading where
  aqi  : Option ℚ
  pm25 : Option ℚ
  pm10 : Option ℚ
  no2  : Option ℚ
deriving DecidableEq, Repr

/-- Current-weather input (`weatherData`); each field may be absent/null. -/
structure WeatherSnapshot where
  temperature    : Option ℚ
  humidity       : Option ℚ
  pressure       : Option ℚ
  wind_speed     : Option ℚ
  wind_direction : Option ℚ
deriving DecidableEq, Repr

/-- Area metadata (`areaInfo`); the core reads only `district`. -/
structure AreaMeta where
  district : String
deriving DecidableEq, Repr

inductive Season where
  | winter | summer | monsoon | post_monsoon
deriving DecidableEq, Repr

inductive AreaType where
  | central | north | south | east | west
deriving DecidableEq, Repr

/-- The single error the predictor can raise:
`"Insufficient historical data for prediction (minimum 24 hours required)"`. -/
inductive PredictorError where
  | insufficientHistoricalData
deriving DecidableEq, Repr

/-- Feature vector (`PredictionFeatures` in the source). -/
structure PredictionFeatures where
  aqi_avg_24h    : ℚ
  pm25_avg_24h   : ℚ
  pm10_avg_24h   : ℚ
  no2_avg_24h    : ℚ
  temperature    : ℚ
  humidity       : ℚ
  pressure       : ℚ
  wind_speed     : ℚ
  wind_direction : ℚ
  hour_of_day    : ℕ
  day_of_week    : ℕ
  month          : ℕ
  is_weekend     : Bool
  season         : Season
  aqi_trend_3h   : ℚ
  pm25_trend_3h  : ℚ
  area_type      : AreaType
deriving DecidableEq, Repr

/-- One forecast (`PredictionResult` in the source).  `predicted_aqi` is an
integer (`Math.round` then clamp); the pm fields keep one decimal. -/
structure PredictionResult where
  predicted_aqi            : ℤ
  predicted_pm25           : ℚ
  predicted_pm10           : ℚ
  confidence_score         : ℚ
  prediction_horizon_hours : ℕ
  features_used            : PredictionFeatures
  model_version            : String
deriving DecidableEq, Repr

/-- A `{aqi, pm25, pm10}` triple as returned by each component predictor. -/
structure PollutantTriple where
  aqi  : ℚ
  pm25 : ℚ
  pm10 : ℚ
deriving DecidableEq, Repr

/-- JavaScript `v || d` on a possibly-missing number: the default is taken
when the value is absent, null, or `0` (all falsy). -/
def jsOr (v : Option ℚ) (d : ℚ) : ℚ :=
  match v with
  | none => d
  | some x => if x = 0 then d else x

/-- JavaScript `Math.round`: round half toward positive infinity. -/
def jsRound (x : ℚ) : ℤ := ⌊x + 1 / 2⌋

/-- `calculateAverage(data, field)`: mean of the non-null values of `field`,
`0` when there are none. -/
def calculateAverage (data : List Reading) (field : Reading → Option ℚ) : ℚ :=
  let values := (data.map field).filterMap id
  if 0 < values.length then values.foldl (· + ·) 0 / (values.length : ℚ) else 0

/-- `calculateTrend(data, field)`: first non-null minus last non-null value,
`0` when fewer than two entries or fewer than two non-null values. -/
def calculateTrend (data : List Reading) (field : Reading → Option ℚ) : ℚ :=
  if data.length < 2 then 0
  else
    let values := (data.map field).filterMap id
    if values.length < 2 then 0
    else values.headD 0 - values.getLastD 0

/-- `getSeason(month)` (month is 1-based, as the source passes
`getMonth() + 1`). -/
def getSeason (month : ℕ) : Season :=
  if 12 ≤ month ∨ month ≤ 2 then .winter
  else if 3 ≤ month ∧ month ≤ 5 then .summer
  else if 6 ≤ month ∧ month ≤ 9 then .monsoon
  else .post_monsoon

/-- Does `needle` occur at the start of `hay`? -/
def startsWithChars : List Char → List Char → Bool
  | _, [] => true
  | [], _ :: _ => false
  | h :: hs, n :: ns => h = n && startsWithChars hs ns

/-- Does `needle` occur contiguously anywhere in `hay`
(JavaScript `String.includes` on the character level)? -/
def containsSub : List Char → List Char → Bool
  | [], needle => needle.isEmpty
  | h :: hs, needle => startsWithChars (h :: hs) needle || containsSub hs needle

/-- `getAreaType(district)`: case-insensitive substring match in priority
order central, north, south, east; default west. -/
def getAreaType (district : String) : AreaType :=
  let d := district.toLower
  if containsSub d.data "central".data then .central
  else if containsSub d.data "north".data then .north
  else if containsSub d.data "south".data then .south
  else if containsSub d.data "east".data then .east
  else .west

/-- `getHourlyMultiplier(hour)`: traffic/activity pattern table with default
`{1.0, 1.0, 1.0}` for hours without an explicit entry. -/
def getHourlyMultiplier (hour : ℕ) : PollutantTriple :=
  match hour with
  | 7  => ⟨1.3, 1.4, 1.3⟩
  | 8  => ⟨1.4, 1.5, 1.4⟩
  | 9  => ⟨1.3, 1.4, 1.3⟩
  | 10 => ⟨1.2, 1.3, 1.2⟩
  | 18 => ⟨1.3, 1.4, 1.3⟩
  | 19 => ⟨1.4, 1.5, 1.4⟩
  | 20 => ⟨1.3, 1.4, 1.3⟩
  | 21 => ⟨1.2, 1.3, 1.2⟩
  | 0  => ⟨0.8, 0.7, 0.8⟩
  | 1  => ⟨0.7, 0.6, 0.7⟩
  | 2  => ⟨0.7, 0.6, 0.7⟩
  | 3  => ⟨0.7, 0.6, 0.7⟩
  | 4  => ⟨0.8, 0.7, 0.8⟩
  | 5  => ⟨0.9, 0.8, 0.9⟩
  | _  => ⟨1.0, 1.0, 1.0⟩

/-- The per-season multipliers of `seasonalPrediction`. -/
def seasonalMultipliers (s : Season) : PollutantTriple :=
  match s with
  | .winter       => ⟨1.3, 1.4, 1.3⟩
  | .summer       => ⟨1.1, 1.2, 1.1⟩
  | .monsoon      => ⟨0.7, 0.6, 0.7⟩
  | .post_monsoon => ⟨1.0, 1.0, 1.0⟩

/-- The per-season factors of `calculateConfidence`. -/
def seasonalConfidence (s : Season) : ℚ :=
  match s with
  | .winter       => 0.85
  | .summer       => 0.8
  | .monsoon      => 0.6
  | .post_monsoon => 0.9

/-- Month (1..12) of the civil (proleptic-Gregorian, UTC) date that is `z`
days after 1970-01-01; standard days-to-civil conversion. -/
def monthFromDays (z : ℕ) : ℕ :=
  let z2 := z + 719468
  let doe := z2 % 146097
  let yoe := (doe - doe / 1460 + doe / 36524 - doe / 146096) / 365
  let doy := doe - (365 * yoe + yoe / 4 - yoe / 100)
  let mp := (5 * doy + 2) / 153
  if mp < 10 then mp + 3 else mp - 9

/-- `extractFeatures(historicalData, weatherData, areaInfo, hoursAhead)` with
the wall clock (`Date.now()`) passed explicitly as `nowMs`.  The temporal
fields come from `new Date(now + hoursAhead*60*60*1000)`; `month` embeds the
source's `getMonth() + 1` (so it is 1-based). -/
def extractFeatures (historicalData : List Reading) (weatherData : WeatherSnapshot)
    (areaInfo : AreaMeta) (hoursAhead : ℕ) (nowMs : ℕ) : PredictionFeatures :=
  let recent24h := historicalData.take 24
  let recent3h := historicalData.take 3
  let aqi_avg_24h := calculateAverage recent24h Reading.aqi
  let pm25_avg_24h := calculateAverage recent24h Reading.pm25
  let pm10_avg_24h := calculateAverage recent24h Reading.pm10
  let no2_avg_24h := calculateAverage recent24h Reading.no2
  let aqi_trend_3h := calculateTrend recent3h Reading.aqi
  let pm25_trend_3h := calculateTrend recent3h Reading.pm25
  let futureMs := nowMs + hoursAhead * (60 * 60 * 1000)
  let hour_of_day := futureMs / (60 * 60 * 1000) % 24
  let days := futureMs / (24 * 60 * 60 * 1000)
  let day_of_week := (days + 4) % 7
  let month := monthFromDays days
  let is_weekend := day_of_week == 0 || day_of_week == 6
  { aqi_avg_24h, pm25_avg_24h, pm10_avg_24h, no2_avg_24h
    temperature := jsOr weatherData.temperature 25
    humidity := jsOr weatherData.humidity 60
    pressure := jsOr weatherData.pressure 1013
    wind_speed := jsOr weatherData.wind_speed 2
    wind_direction := jsOr weatherData.wind_direction 180
    hour_of_day, day_of_week, month, is_weekend
    season := getSeason month
    aqi_trend_3h, pm25_trend_3h
    area_type := getAreaType areaInfo.district }

/-- `linearTrendPrediction(features, hoursAhead)`. -/
def linearTrendPrediction (features : PredictionFeatures) (hoursAhead : ℕ) :
    PollutantTriple :=
  let trend_factor : ℚ := min ((hoursAhead : ℚ) / 24) 1
  { aqi := features.aqi_avg_24h + features.aqi_trend_3h * trend_factor
    pm25 := features.pm25_avg_24h + features.pm25_trend_3h * trend_factor
    pm10 := features.pm10_avg_24h + features.pm25_trend_3h * 1.2 * trend_factor }

/-- `seasonalPrediction(features, hoursAhead)`. -/
def seasonalPrediction (features : PredictionFeatures) (_hoursAhead : ℕ) :
    PollutantTriple :=
  let m := seasonalMultipliers features.season
  let hm := getHourlyMultiplier features.hour_of_day
  let w : ℚ := if features.is_weekend then 0.85 else 1.0
  { aqi := features.aqi_avg_24h * m.aqi * hm.aqi * w
    pm25 := features.pm25_avg_24h * m.pm25 * hm.pm25 * w
    pm10 := features.pm10_avg_24h * m.pm10 * hm.pm10 * w }

/-- `weatherBasedPrediction(features, hoursAhead)`. -/
def weatherBasedPrediction (features : PredictionFeatures) (_hoursAhead : ℕ) :
    PollutantTriple :=
  let windEffect := max 0.5 (1 - (features.wind_speed - 2) * 0.1)
  let humidityEffect := 1 + (features.humidity - 60) * 0.005
  let tempEffect := 1 + (features.temperature - 25) * 0.01
  let pressureEffect := 1 + (1013 - features.pressure) * 0.001
  let wm := windEffect * humidityEffect * tempEffect * pressureEffect
  { aqi := features.aqi_avg_24h * wm
    pm25 := features.pm25_avg_24h * wm
    pm10 := features.pm10_avg_24h * wm }

/-- The running `confidence` variable of `calculateConfidence` just before the
final clamp-and-round: `1.0`, times the horizon decay, times the extreme-wind
and extreme-humidity penalties, times the per-season factor. -/
def confRaw (features : PredictionFeatures) (hoursAhead : ℕ) : ℚ :=
  let c1 : ℚ := 1.0 * max 0.3 (1 - (hoursAhead : ℚ) / 48)
  let c2 := if 10 < features.wind_speed ∨ features.wind_speed < 0.5 then c1 * 0.8 else c1
  let c3 := if 90 < features.humidity ∨ features.humidity < 20 then c2 * 0.9 else c2
  c3 * seasonalConfidence features.season

/-- `calculateConfidence(features, hoursAhead)`:
`Math.round(Math.max(0.1, Math.min(1.0, confidence)) * 100) / 100`. -/
def calculateConfidence (features : PredictionFeatures) (hoursAhead : ℕ) : ℚ :=
  (jsRound (max 0.1 (min 1.0 (confRaw features hoursAhead)) * 100) : ℚ) / 100

/-- The `modelVersion` field of the singleton predictor. -/
def modelVersion : String := "v1.0.0"

/-- `predictSingleHour(features, hoursAhead)`: weighted ensemble of the three
component predictors, rounded and clamped, plus the confidence score. -/
def predictSingleHour (features : PredictionFeatures) (hoursAhead : ℕ) :
    PredictionResult :=
  let linear := linearTrendPrediction features hoursAhead
  let seasonal := seasonalPrediction features hoursAhead
  let weather := weatherBasedPrediction features hoursAhead
  let wl : ℚ := 0.3
  let ws : ℚ := 0.4
  let ww : ℚ := 0.3
  let predicted_aqi := jsRound (linear.aqi * wl + seasonal.aqi * ws + weather.aqi * ww)
  let predicted_pm25 :=
    (jsRound ((linear.pm25 * wl + seasonal.pm25 * ws + weather.pm25 * ww) * 10) : ℚ) / 10
  let predicted_pm10 :=
    (jsRound ((linear.pm10 * wl + seasonal.pm10 * ws + weather.pm10 * ww) * 10) : ℚ) / 10
  { predicted_aqi := max 0 (min 500 predicted_aqi)
    predicted_pm25 := max 0 predicted_pm25
    predicted_pm10 := max 0 predicted_pm10
    confidence_score := calculateConfidence features hoursAhead
    prediction_horizon_hours := hoursAhead
    features_used := features
    model_version := modelVersion }

/-- `generatePredictions(historicalData, weatherData, areaInfo, hoursAhead)`:
the up-front history-length check, then one forecast per hour `1..hoursAhead`
(the `for` loop body never runs when `hoursAhead ≤ 0`). -/
def generatePredictions (historicalData : List Reading) (weatherData : WeatherSnapshot)
    (areaInfo : AreaMeta) (hoursAhead : ℤ) (nowMs : ℕ) :
    Except PredictorError (List PredictionResult) :=
  if historicalData.length < 24 then
    .error .insufficientHistoricalData
  else
    .ok (((List.range hoursAhead.toNat).map (· + 1)).map fun hour =>
      predictSingleHour (extractFeatures historicalData weatherData areaInfo hour nowMs) hour)

/-! Spec-side definitions (written from the spec's words, for comparison with
the embedded code) and concrete fixtures used by witnesses. -/

/-- The non-null values of a field across a list of readings. -/
def nonNullValues (data : List Reading) (field : Reading → Option ℚ) : List ℚ :=
  (data.map field).filterMap id

/-- Modelled from the spec: the arithmetic mean of a list of values, `0` (not
NaN) when the list is empty. -/
def meanSpec (l : List ℚ) : ℚ :=
  if l = [] then 0 else l.sum / (l.length : ℚ)

/-- A reading with every field absent. -/
def blank : Reading := ⟨none, none, none, none⟩

/-- 24 fully-blank readings: a minimal valid history. -/
def hist0 : List Reading := List.replicate 24 blank

/-- A weather snapshot with every field absent. -/
def w0 : WeatherSnapshot := ⟨none, none, none, none, none⟩

/-- An area whose district matches no region keyword. -/
def a0 : AreaMeta := ⟨"Unknown"⟩

/-- A three-entry history with a null middle aqi/pm25 value. -/
def hist3 : List Reading :=
  [⟨some 10, some 5, none, none⟩, blank, ⟨some 4, some 1, none, none⟩]

/-- Weather with a genuine zero wind-speed reading, a present temperature and
pressure, and absent humidity and wind direction. -/
def w0z : WeatherSnapshot := ⟨some 30, none, some 1000, some 0, none⟩

/-- The single forecast produced for `hist0`/`w0`/`a0` at horizon 1. -/
def r0 : PredictionResult := predictSingleHour (extractFeatures hist0 w0 a0 1 0) 1

/-- The forecast list produced for `hist0`/`w0`/`a0` with `hours_ahead = 1`. -/
def l0 : List PredictionResult := [r0]

/-! Helper lemmas. -/

theorem foldl_add_eq_sum : ∀ (l : List ℚ) (a : ℚ), l.foldl (· + ·) a = a + l.sum
  | [], a => by simp
  | x :: xs, a => by
    simp only [List.foldl_cons, List.sum_cons, foldl_add_eq_sum xs]
    ring

/-- The source's `calculateAverage` computes the spec's arithmetic mean of the
non-null values, with `0` on an all-null window. -/
theorem calculateAverage_eq (data : List Reading) (field : Reading → Option ℚ) :
    calculateAverage data field = meanSpec (nonNullValues data field) := by
  unfold calculateAverage meanSpec nonNullValues
  by_cases h : (data.map field).filterMap id = []
  · simp [h]
  · have hl : 0 < ((data.map field).filterMap id).length := List.length_pos.mpr h
    rw [if_pos hl, if_neg h, foldl_add_eq_sum, zero_add]

theorem predictSingleHour_horizon (f : PredictionFeatures) (h : ℕ) :
    (predictSingleHour f h).prediction_horizon_hours = h := rfl

theorem predictSingleHour_aqi_bounds (f : PredictionFeatures) (h : ℕ) :
    0 ≤ (predictSingleHour f h).predicted_aqi ∧ (predictSingleHour f h).predicted_aqi ≤ 500 :=
  ⟨le_max_left _ _, max_le (by norm_num) (min_le_left _ _)⟩

theorem predictSingleHour_pm25_nonneg (f : PredictionFeatures) (h : ℕ) :
    0 ≤ (predictSingleHour f h).predicted_pm25 :=
  le_max_left _ _

theorem predictSingleHour_pm10_nonneg (f : PredictionFeatures) (h : ℕ) :
    0 ≤ (predictSingleHour f h).predicted_pm10 :=
  le_max_left _ _

/-- The clamp-then-round step lands in `[1/10, 1]` whatever the raw value. -/
theorem clampRound_bounds (x : ℚ) :
    1 / 10 ≤ (jsRound (max 0.1 (min 1.0 x) * 100) : ℚ) / 100 ∧
      (jsRound (max 0.1 (min 1.0 x) * 100) : ℚ) / 100 ≤ 1 := by
  have h1 : (1 : ℚ) / 10 ≤ max 0.1 (min 1.0 x) := by
    have : (0.1 : ℚ) = 1 / 10 := by norm_num
    rw [← this]
    exact le_max_left _ _
  have h2 : max (0.1 : ℚ) (min 1.0 x) ≤ 1 :=
    max_le (by norm_num) ((min_le_left _ _).trans (by norm_num))
  have hlo : (10 : ℤ) ≤ jsRound (max 0.1 (min 1.0 x) * 100) := by
    unfold jsRound
    apply Int.le_floor.mpr
    push_cast
    linarith
  have hhi : jsRound (max 0.1 (min 1.0 x) * 100) ≤ 100 := by
    unfold jsRound
    have hle : max (0.1 : ℚ) (min 1.0 x) * 100 + 1 / 2 ≤ 201 / 2 := by linarith
    calc ⌊max (0.1 : ℚ) (min 1.0 x) * 100 + 1 / 2⌋ ≤ ⌊(201 / 2 : ℚ)⌋ :=
        Int.floor_le_floor hle
      _ = 100 := by
        rw [Int.floor_eq_iff] <;> norm_num
  constructor
  · have : (10 : ℚ) ≤ (jsRound (max 0.1 (min 1.0 x) * 100) : ℚ) := by exact_mod_cast hlo
    linarith
  · have : (jsRound (max 0.1 (min 1.0 x) * 100) : ℚ) ≤ 100 := by exact_mod_cast hhi
    linarith

theorem calculateConfidence_bounds (f : PredictionFeatures) (h : ℕ) :
    1 / 10 ≤ calculateConfidence f h ∧ calculateConfidence f h ≤ 1 :=
  clampRound_bounds _

theorem seasonalConfidence_nonneg (s : Season) : 0 ≤ seasonalConfidence s := by
  cases s <;> norm_num [seasonalConfidence]

/-- The pre-clamp confidence value is antitone in the horizon. -/
theorem confRaw_antitone (f : PredictionFeatures) {h k : ℕ} (hk : h ≤ k) :
    confRaw f k ≤ confRaw f h := by
  have hd : max (0.3 : ℚ) (1 - (k : ℚ) / 48) ≤ max 0.3 (1 - (h : ℚ) / 48) := by
    apply max_le_max le_rfl
    have : (h : ℚ) ≤ (k : ℚ) := by exact_mod_cast hk
    linarith
  have hs : 0 ≤ seasonalConfidence f.season := seasonalConfidence_nonneg _
  simp only [confRaw]
  split_ifs <;> nlinarith [mul_nonneg (sub_nonneg.mpr hd) hs]

/-- The clamp-then-round step is monotone. -/
theorem clampRound_mono {x y : ℚ} (hxy : x ≤ y) :
    (jsRound (max 0.1 (min 1.0 x) * 100) : ℚ) / 100 ≤
      (jsRound (max 0.1 (min 1.0 y) * 100) : ℚ) / 100 := by
  have h1 : max (0.1 : ℚ) (min 1.0 x) ≤ max 0.1 (min 1.0 y) :=
    max_le_max le_rfl (min_le_min le_rfl hxy)
  have h2 : jsRound (max (0.1 : ℚ) (min 1.0 x) * 100) ≤ jsRound (max (0.1 : ℚ) (min 1.0 y) * 100) := by
    unfold jsRound
    apply Int.floor_le_floor
    linarith
  have h3 : ((jsRound (max (0.1 : ℚ) (min 1.0 x) * 100) : ℤ) : ℚ) ≤
      ((jsRound (max (0.1 : ℚ) (min 1.0 y) * 100) : ℤ) : ℚ) := by exact_mod_cast h2
  linarith

theorem jsOr_default {v : Option ℚ} (d : ℚ) (hv : v = none ∨ v = some 0) :
    jsOr v d = d := by
  rcases hv with rfl | rfl <;> simp [jsOr]

theorem jsOr_pass {v : Option ℚ} (d x : ℚ) (hv : v = some x) (hx : x ≠ 0) :
    jsOr v d = x := by
  subst hv
  simp [jsOr, hx]

/-- `calculateTrend` over the first three readings, when both the newest and
the third-newest value of the field are present. -/
theorem calculateTrend_take3_of_ends (hist : List Reading) (field : Reading → Option ℚ)
    (x y : ℚ) (h0 : hist.head?.bind field = some x)
    (h2 : (hist.get? 2).bind field = some y) :
    calculateTrend (hist.take 3) field = x - y := by
  rcases hist with _ | ⟨r0, hist1⟩
  · simp at h0
  rcases hist1 with _ | ⟨r1, hist2⟩
  · simp at h2
  rcases hist2 with _ | ⟨r2, rest⟩
  · simp at h2
  simp only [List.head?_cons, Option.some_bind] at h0
  simp only [List.get?] at h2
  simp only [Option.some_bind] at h2
  rcases hr1 : field r1 with _ | b <;>
    simp [calculateTrend, List.take, List.filterMap, h0, h2, hr1, List.headD, List.getLastD]

/-- `calculateTrend` over the first three readings is `0` when fewer than two
non-null values are present there. -/
theorem calculateTrend_take3_few (hist : List Reading) (field : Reading → Option ℚ)
    (hfew : (nonNullValues (hist.take 3) field).length < 2) :
    calculateTrend (hist.take 3) field = 0 := by
  simp only [nonNullValues] at hfew
  simp only [calculateTrend]
  split_ifs with h1
  · rfl
  · simp [hfew]

/-! Claim theorems. -/

/-- Claim C1: for every history of length ≥ 24, weather, area, and
`hours_ahead = N ≥ 1`, `generatePredictions` returns a list of exactly `N`
forecasts whose `prediction_horizon_hours` fields are `1, 2, …, N` in that
order. -/
theorem C1_generate_returns_N_ordered_horizons (hist : List Reading)
    (w : WeatherSnapshot) (a : AreaMeta) (N : ℕ) (now : ℕ)
    (hlen : 24 ≤ hist.length) (_hN : 1 ≤ N) :
    (generatePredictions hist w a (N : ℤ) now).map
        (fun l => (l.length, l.map PredictionResult.prediction_horizon_hours)) =
      Except.ok (N, (List.range N).map (· + 1)) := by
  unfold generatePredictions
  rw [if_neg (by omega)]
  simp [Except.map, List.map_map, Function.comp, predictSingleHour_horizon]

/-- Claim C1 witness: at 24 blank readings and `N = 2` the hypotheses hold and
the conclusion is the pair `(2, [1, 2])`. -/
theorem C1_witness :
    24 ≤ hist0.length ∧ 1 ≤ 2 ∧
      (generatePredictions hist0 w0 a0 (2 : ℤ) 0).map
          (fun l => (l.length, l.map PredictionResult.prediction_horizon_hours)) =
        Except.ok (2, (List.range 2).map (· + 1)) :=
  ⟨by decide, by decide,
    C1_generate_returns_N_ordered_horizons hist0 w0 a0 2 0 (by decide) (by decide)⟩

/-- Claim C2: `generatePredictions` raises the insufficient-history error if
and only if the supplied history has fewer than 24 entries (the check is the
first thing the function does, before any per-hour work); with 24 or more
entries it returns an ok list.  Instantiating at history lengths 23 and 24
gives the spec's boundary cases. -/
theorem C2_insufficient_history_iff (hist : List Reading) (w : WeatherSnapshot)
    (a : AreaMeta) (n : ℤ) (now : ℕ) :
    (generatePredictions hist w a n now =
        Except.error PredictorError.insufficientHistoricalData ↔ hist.length < 24) ∧
      ((∃ l, generatePredictions hist w a n now = Except.ok l) ↔ 24 ≤ hist.length) := by
  unfold generatePredictions
  by_cases h : hist.length < 24 <;> simp [h] <;> omega

/-- Claim C3: every forecast produced by `generatePredictions` has
`predicted_aqi ∈ [0, 500]`, `predicted_pm25 ≥ 0`, `predicted_pm10 ≥ 0`, and
`confidence_score ∈ [0.1, 1.0]`. -/
theorem C3_forecast_bounds (hist : List Reading) (w : WeatherSnapshot)
    (a : AreaMeta) (n : ℤ) (now : ℕ) (l : List PredictionResult)
    (hl : generatePredictions hist w a n now = Except.ok l) :
    ∀ r ∈ l, 0 ≤ r.predicted_aqi ∧ r.predicted_aqi ≤ 500 ∧
      0 ≤ r.predicted_pm25 ∧ 0 ≤ r.predicted_pm10 ∧
      1 / 10 ≤ r.confidence_score ∧ r.confidence_score ≤ 1 := by
  unfold generatePredictions at hl
  split at hl
  · exact absurd hl (by simp)
  · rw [Except.ok.injEq] at hl
    subst hl
    intro r hr
    rw [List.mem_map] at hr
    obtain ⟨hour, _, rfl⟩ := hr
    exact ⟨(predictSingleHour_aqi_bounds _ _).1, (predictSingleHour_aqi_bounds _ _).2,
      predictSingleHour_pm25_nonneg _ _, predictSingleHour_pm10_nonneg _ _,
      (calculateConfidence_bounds _ _).1, (calculateConfidence_bounds _ _).2⟩

/-- Claim C3 witness: the one-hour forecast for 24 blank readings exists,
contains `r0`, and `r0` satisfies all the bounds. -/
theorem C3_witness :
    generatePredictions hist0 w0 a0 1 0 = Except.ok l0 ∧ r0 ∈ l0 ∧
      (0 ≤ r0.predicted_aqi ∧ r0.predicted_aqi ≤ 500 ∧
        0 ≤ r0.predicted_pm25 ∧ 0 ≤ r0.predicted_pm10 ∧
        1 / 10 ≤ r0.confidence_score ∧ r0.confidence_score ≤ 1) :=
  ⟨rfl, List.mem_singleton.mpr rfl,
    C3_forecast_bounds hist0 w0 a0 1 0 l0 rfl r0 (List.mem_singleton.mpr rfl)⟩

/-- Claim C4 counterexample: with a valid 24-entry history and
`hours_ahead = -5 ≤ 0`, `generatePredictions` raises no error at all — it
returns `ok []` (the source has no horizon validation; the loop body simply
never runs), so no `InvalidInput` error is surfaced to the caller. -/
theorem C4_counterexample :
    generatePredictions hist0 w0 a0 (-5) 0 = Except.ok [] := rfl

/-- Claim C4 amended: for any history of length ≥ 24 and any weather/area
inputs, a requested horizon `hours_ahead ≤ 0` raises no error:
`generatePredictions` returns the empty forecast list. -/
theorem C4_nonpositive_horizon_yields_empty (hist : List Reading)
    (w : WeatherSnapshot) (a : AreaMeta) (n : ℤ) (now : ℕ)
    (hlen : 24 ≤ hist.length) (hn : n ≤ 0) :
    generatePredictions hist w a n now = Except.ok [] := by
  unfold generatePredictions
  rw [if_neg (by omega)]
  rw [Int.toNat_of_nonpos hn]
  rfl

/-- Claim C4 witness: the amended statement at 24 blank readings and
`hours_ahead = 0`. -/
theorem C4_witness :
    24 ≤ hist0.length ∧ (0 : ℤ) ≤ 0 ∧
      generatePredictions hist0 w0 a0 0 0 = Except.ok [] :=
  ⟨by decide, by decide,
    C4_nonpositive_horizon_yields_empty hist0 w0 a0 0 0 (by decide) (by decide)⟩

/-- Claim C5: with the feature vector (weather fields and season) held fixed,
the confidence score is monotonically non-increasing in the horizon: for every
horizon `h` with `h + 1 ≤ 48`, `confidence(h+1) ≤ confidence(h)`. -/
theorem C5_confidence_antitone_in_horizon (f : PredictionFeatures) (h : ℕ)
    (_hh : h + 1 ≤ 48) :
    calculateConfidence f (h + 1) ≤ calculateConfidence f h :=
  clampRound_mono (confRaw_antitone f (Nat.le_succ h))

/-- Claim C5 witness: with the features extracted from the blank fixtures and
`h = 3`, the hypothesis holds and the step from horizon 3 to 4 does not
increase confidence. -/
theorem C5_witness :
    3 + 1 ≤ 48 ∧
      calculateConfidence (extractFeatures hist0 w0 a0 1 0) 4 ≤
        calculateConfidence (extractFeatures hist0 w0 a0 1 0) 3 :=
  ⟨by decide, C5_confidence_antitone_in_horizon (extractFeatures hist0 w0 a0 1 0) 3 (by decide)⟩

/-- Claim C6: `generatePredictions` is deterministic — two calls with equal
history, weather, area, horizon, and the same frozen wall-clock time produce
identical output sequences.  (In the embedding the core is a pure function of
exactly these five inputs; the source's only environmental read is
`Date.now()`, modelled by `nowMs`, and the core contains no randomness.) -/
theorem C6_generate_deterministic (hist₁ hist₂ : List Reading)
    (w₁ w₂ : WeatherSnapshot) (a₁ a₂ : AreaMeta) (n₁ n₂ : ℤ) (t₁ t₂ : ℕ)
    (eh : hist₁ = hist₂) (ew : w₁ = w₂) (ea : a₁ = a₂) (en : n₁ = n₂)
    (et : t₁ = t₂) :
    generatePredictions hist₁ w₁ a₁ n₁ t₁ = generatePredictions hist₂ w₂ a₂ n₂ t₂ := by
  subst eh ew ea en et
  rfl

/-- Claim C6 witness: two calls on the blank fixtures agree. -/
theorem C6_witness :
    hist0 = hist0 ∧ w0 = w0 ∧ a0 = a0 ∧ (1 : ℤ) = 1 ∧ (0 : ℕ) = 0 ∧
      generatePredictions hist0 w0 a0 1 0 = generatePredictions hist0 w0 a0 1 0 :=
  ⟨rfl, rfl, rfl, rfl, rfl,
    C6_generate_deterministic hist0 hist0 w0 w0 a0 a0 1 1 0 0 rfl rfl rfl rfl rfl⟩

/-- Claim C7: each 24-hour rolling average computed by the feature extractor
equals the arithmetic mean of the non-null values of that field among the
first 24 entries of the history, and equals 0 (not NaN) when all those values
are null/absent. -/
theorem C7_rolling_average_is_mean_of_nonnull (hist : List Reading)
    (w : WeatherSnapshot) (a : AreaMeta) (h now : ℕ) :
    ((extractFeatures hist w a h now).aqi_avg_24h =
        meanSpec (nonNullValues (hist.take 24) Reading.aqi) ∧
      (extractFeatures hist w a h now).pm25_avg_24h =
        meanSpec (nonNullValues (hist.take 24) Reading.pm25) ∧
      (extractFeatures hist w a h now).pm10_avg_24h =
        meanSpec (nonNullValues (hist.take 24) Reading.pm10) ∧
      (extractFeatures hist w a h now).no2_avg_24h =
        meanSpec (nonNullValues (hist.take 24) Reading.no2)) ∧
    ((nonNullValues (hist.take 24) Reading.aqi = [] →
        (extractFeatures hist w a h now).aqi_avg_24h = 0) ∧
      (nonNullValues (hist.take 24) Reading.pm25 = [] →
        (extractFeatures hist w a h now).pm25_avg_24h = 0) ∧
      (nonNullValues (hist.take 24) Reading.pm10 = [] →
        (extractFeatures hist w a h now).pm10_avg_24h = 0) ∧
      (nonNullValues (hist.take 24) Reading.no2 = [] →
        (extractFeatures hist w a h now).no2_avg_24h = 0)) := by
  have e1 : (extractFeatures hist w a h now).aqi_avg_24h =
      meanSpec (nonNullValues (hist.take 24) Reading.aqi) := calculateAverage_eq _ _
  have e2 : (extractFeatures hist w a h now).pm25_avg_24h =
      meanSpec (nonNullValues (hist.take 24) Reading.pm25) := calculateAverage_eq _ _
  have e3 : (extractFeatures hist w a h now).pm10_avg_24h =
      meanSpec (nonNullValues (hist.take 24) Reading.pm10) := calculateAverage_eq _ _
  have e4 : (extractFeatures hist w a h now).no2_avg_24h =
      meanSpec (nonNullValues (hist.take 24) Reading.no2) := calculateAverage_eq _ _
  refine ⟨⟨e1, e2, e3, e4⟩, ?_, ?_, ?_, ?_⟩ <;> intro he
  · rw [e1, he]; rfl
  · rw [e2, he]; rfl
  · rw [e3, he]; rfl
  · rw [e4, he]; rfl

/-- Claim C7 witness: on 24 fully-blank readings the aqi average equals the
spec mean, the non-null window is empty, and the average is 0. -/
theorem C7_witness :
    (extractFeatures hist0 w0 a0 1 0).aqi_avg_24h =
        meanSpec (nonNullValues (hist0.take 24) Reading.aqi) ∧
      nonNullValues (hist0.take 24) Reading.aqi = [] ∧
      (extractFeatures hist0 w0 a0 1 0).aqi_avg_24h = 0 :=
  ⟨(C7_rolling_average_is_mean_of_nonnull hist0 w0 a0 1 0).1.1, by decide,
    (C7_rolling_average_is_mean_of_nonnull hist0 w0 a0 1 0).2.1 (by decide)⟩

/-- Claim C8: the 3-hour trend of a field (aqi, pm25) computed by the feature
extractor equals `history[0].field − history[2].field` when both those values
are non-null, and equals 0 when fewer than 2 of the first 3 entries have a
non-null value for the field. -/
theorem C8_trend_is_first_minus_third (hist : List Reading) (w : WeatherSnapshot)
    (a : AreaMeta) (h now : ℕ) :
    ((∀ x y : ℚ, hist.head?.bind Reading.aqi = some x →
        (hist.get? 2).bind Reading.aqi = some y →
        (extractFeatures hist w a h now).aqi_trend_3h = x - y) ∧
      ((nonNullValues (hist.take 3) Reading.aqi).length < 2 →
        (extractFeatures hist w a h now).aqi_trend_3h = 0)) ∧
    ((∀ x y : ℚ, hist.head?.bind Reading.pm25 = some x →
        (hist.get? 2).bind Reading.pm25 = some y →
        (extractFeatures hist w a h now).pm25_trend_3h = x - y) ∧
      ((nonNullValues (hist.take 3) Reading.pm25).length < 2 →
        (extractFeatures hist w a h now).pm25_trend_3h = 0)) :=
  ⟨⟨fun _ _ h0 h2 => calculateTrend_take3_of_ends hist Reading.aqi _ _ h0 h2,
    fun hfew => calculateTrend_take3_few hist Reading.aqi hfew⟩,
    ⟨fun _ _ h0 h2 => calculateTrend_take3_of_ends hist Reading.pm25 _ _ h0 h2,
      fun hfew => calculateTrend_take3_few hist Reading.pm25 hfew⟩⟩

/-- Claim C8 witness: on `hist3` (aqi `10, null, 4`; pm25 `5, null, 1`) the
extracted trends are `10 − 4` and `5 − 1`; on all-blank `hist0` the aqi trend
is 0. -/
theorem C8_witness :
    (extractFeatures hist3 w0 a0 1 0).aqi_trend_3h = 10 - 4 ∧
      (extractFeatures hist3 w0 a0 1 0).pm25_trend_3h = 5 - 1 ∧
      (extractFeatures hist0 w0 a0 1 0).aqi_trend_3h = 0 :=
  ⟨(C8_trend_is_first_minus_third hist3 w0 a0 1 0).1.1 10 4 rfl rfl,
    (C8_trend_is_first_minus_third hist3 w0 a0 1 0).2.1 5 1 rfl rfl,
    (C8_trend_is_first_minus_third hist0 w0 a0 1 0).1.2 (by decide)⟩

/-- Claim C9: in the linear-trend component predictor, the aqi and pm25
outputs equal their 24h-average base plus their own 3h trend times
`min(horizon_hours/24, 1)`, while the pm10 output equals the pm10 base plus
the pm25 trend scaled by 1.2 times the same factor — the formula contains no
pm10 trend (the feature vector has none). -/
theorem C9_linear_trend_formulas (f : PredictionFeatures) (h : ℕ) :
    (linearTrendPrediction f h).aqi =
        f.aqi_avg_24h + f.aqi_trend_3h * min ((h : ℚ) / 24) 1 ∧
      (linearTrendPrediction f h).pm25 =
        f.pm25_avg_24h + f.pm25_trend_3h * min ((h : ℚ) / 24) 1 ∧
      (linearTrendPrediction f h).pm10 =
        f.pm10_avg_24h + f.pm25_trend_3h * 1.2 * min ((h : ℚ) / 24) 1 :=
  ⟨rfl, rfl, rfl⟩

/-- Claim C10: the feature extractor substitutes the fixed defaults
(temperature 25, humidity 60, pressure 1013, wind_speed 2, wind_direction 180)
whenever the supplied weather value is absent/null or zero (any falsy value),
and passes a non-zero value through unchanged; in particular a genuine
`wind_speed = 0` reading becomes 2 in the features that the weather-response
predictor and the confidence calculation consume. -/
theorem C10_weather_defaults (hist : List Reading) (w : WeatherSnapshot)
    (a : AreaMeta) (h now : ℕ) :
    (((w.temperature = none ∨ w.temperature = some 0) →
        (extractFeatures hist w a h now).temperature = 25) ∧
      (∀ x : ℚ, w.temperature = some x → x ≠ 0 →
        (extractFeatures hist w a h now).temperature = x)) ∧
    (((w.humidity = none ∨ w.humidity = some 0) →
        (extractFeatures hist w a h now).humidity = 60) ∧
      (∀ x : ℚ, w.humidity = some x → x ≠ 0 →
        (extractFeatures hist w a h now).humidity = x)) ∧
    (((w.pressure = none ∨ w.pressure = some 0) →
        (extractFeatures hist w a h now).pressure = 1013) ∧
      (∀ x : ℚ, w.pressure = some x → x ≠ 0 →
        (extractFeatures hist w a h now).pressure = x)) ∧
    (((w.wind_speed = none ∨ w.wind_speed = some 0) →
        (extractFeatures hist w a h now).wind_speed = 2) ∧
      (∀ x : ℚ, w.wind_speed = some x → x ≠ 0 →
        (extractFeatures hist w a h now).wind_speed = x)) ∧
    (((w.wind_direction = none ∨ w.wind_direction = some 0) →
        (extractFeatures hist w a h now).wind_direction = 180) ∧
      (∀ x : ℚ, w.wind_direction = some x → x ≠ 0 →
        (extractFeatures hist w a h now).wind_direction = x)) :=
  ⟨⟨fun hv => jsOr_default 25 hv, fun _ hv hx => jsOr_pass 25 _ hv hx⟩,
    ⟨fun hv => jsOr_default 60 hv, fun _ hv hx => jsOr_pass 60 _ hv hx⟩,
    ⟨fun hv => jsOr_default 1013 hv, fun _ hv hx => jsOr_pass 1013 _ hv hx⟩,
    ⟨fun hv => jsOr_default 2 hv, fun _ hv hx => jsOr_pass 2 _ hv hx⟩,
    ⟨fun hv => jsOr_default 180 hv, fun _ hv hx => jsOr_pass 180 _ hv hx⟩⟩

/-- Claim C10 witness: with `w0z` (temperature 30, humidity absent, pressure
1000, wind_speed 0, wind_direction absent) the extractor yields wind_speed 2,
temperature 30, humidity 60, pressure 1000, wind_direction 180. -/
theorem C10_witness :
    (extractFeatures hist0 w0z a0 1 0).wind_speed = 2 ∧
      (extractFeatures hist0 w0z a0 1 0).temperature = 30 ∧
      (extractFeatures hist0 w0z a0 1 0).humidity = 60 ∧
      (extractFeatures hist0 w0z a0 1 0).pressure = 1000 ∧
      (extractFeatures hist0 w0z a0 1 0).wind_direction = 180 :=
  ⟨(C10_weather_defaults hist0 w0z a0 1 0).2.2.2.1.1 (Or.inr rfl),
    (C10_weather_defaults hist0 w0z a0 1 0).1.2 30 rfl (by norm_num),
    (C10_weather_defaults hist0 w0z a0 1 0).2.1.1 (Or.inl rfl),
    (C10_weather_defaults hist0 w0z a0 1 0).2.2.1.2 1000 rfl (by norm_num),
    (C10_weather_defaults hist0 w0z a0 1 0).2.2.2.2.1 (Or.inl rfl)⟩

end AirQuality
